import Mathlib

/-!
Shallow embedding of `rtc::scoped_refptr<T>` from `api/scoped_refptr.h`.

Raw pointers are modelled as `Option Nat` (an object identity, or null).
Every operation returns, alongside its value-level result, the list of
capability calls (`AddRef` / `Release`) it issues on pointed-to objects,
in the order the C++ code issues them.  The reference count of an object
is not stored by the wrapper (invariant I2 of the spec); we recover it by
folding a trace of events over an initial count.
-/

namespace rtc

/-- A raw pointer: either null (`none`) or the identity of a counted object. -/
abbrev Ptr : Type := Option Nat

/-- A capability call issued on a counted object: `AddRef o` increments the
count of object `o`, `Release o` decrements it (destroying at zero, a fact
the wrapper never observes). -/
inductive Event : Type where
  | AddRef : Nat → Event
  | Release : Nat → Event
deriving DecidableEq, Repr

/-- Trace of the idiom `if (p) p->AddRef();`. -/
def incrTrace : Ptr → List Event
  | none => []
  | some o => [Event.AddRef o]

/-- Trace of the idiom `if (p) p->Release();`. -/
def decrTrace : Ptr → List Event
  | none => []
  | some o => [Event.Release o]

/-- The wrapper: `template <class T> class scoped_refptr \x7b T* ptr_; ... \x7d`. -/
structure scoped_refptr : Type where
  ptr_ : Ptr
deriving DecidableEq, Repr

/-- `T* get() const \x7b return ptr_; \x7d` -/
def scoped_refptr.get (s : scoped_refptr) : Ptr := s.ptr_

/-- Constructor from a raw pointer:
`scoped_refptr(T* p) : ptr_(p) \x7b if (ptr_) ptr_->AddRef(); \x7d`.
Returns the constructed wrapper and the trace of capability calls. -/
def fromRaw (p : Ptr) : scoped_refptr × List Event :=
  (⟨p⟩, incrTrace p)

/-- Copy constructor:
`scoped_refptr(const scoped_refptr<T>& r) : ptr_(r.ptr_) \x7b if (ptr_) ptr_->AddRef(); \x7d`.
The source `r` is read through a const reference and is not modified. -/
def copyCtor (r : scoped_refptr) : scoped_refptr × List Event :=
  (⟨r.ptr_⟩, incrTrace r.ptr_)

/-- `T* release() \x7b T* retVal = ptr_; ptr_ = nullptr; return retVal; \x7d`.
Returns the previous raw pointer, the wrapper afterwards, and the (empty)
trace of capability calls. -/
def scoped_refptr.release (s : scoped_refptr) : Ptr × scoped_refptr × List Event :=
  (s.ptr_, ⟨none⟩, [])

/-- Move constructor:
`scoped_refptr(scoped_refptr<T>&& r) noexcept : ptr_(r.release()) \x7b\x7d`.
Returns the constructed wrapper, the moved-from wrapper, and the trace. -/
def moveCtor (r : scoped_refptr) : scoped_refptr × scoped_refptr × List Event :=
  let rel := r.release
  (⟨rel.1⟩, rel.2.1, rel.2.2)

/-- Destructor: `~scoped_refptr() \x7b if (ptr_) ptr_->Release(); \x7d`.
Returns the trace of capability calls it issues. -/
def dtor (s : scoped_refptr) : List Event := decrTrace s.ptr_

/-- Raw-pointer assignment:
`operator=(T* p) \x7b if (p) p->AddRef(); if (ptr_) ptr_->Release(); ptr_ = p; \x7d`.
The AddRef on `p` is issued before the Release on the old target. -/
def assignRaw (s : scoped_refptr) (p : Ptr) : scoped_refptr × List Event :=
  (⟨p⟩, incrTrace p ++ decrTrace s.ptr_)

/-- Copy assignment:
`operator=(const scoped_refptr<T>& r) \x7b return *this = r.ptr_; \x7d`
— a delegation to the raw-pointer assignment. -/
def assignCopy (s : scoped_refptr) (r : scoped_refptr) : scoped_refptr × List Event :=
  assignRaw s r.ptr_

/-- `void swap(T** pp) noexcept \x7b T* p = ptr_; ptr_ = *pp; *pp = p; \x7d`.
Returns the wrapper afterwards and the new contents of the slot. -/
def swapSlot (s : scoped_refptr) (pp : Ptr) : scoped_refptr × Ptr :=
  (⟨pp⟩, s.ptr_)

/-- `void swap(scoped_refptr<T>& r) noexcept \x7b swap(&r.ptr_); \x7d`.
Returns both wrappers afterwards and the (empty) trace of capability calls. -/
def swapWrap (a b : scoped_refptr) : scoped_refptr × scoped_refptr × List Event :=
  let sw := swapSlot a b.ptr_
  (sw.1, ⟨sw.2⟩, [])

/-- Move assignment with `r` a distinct object from `*this`:
`operator=(scoped_refptr<T>&& r) noexcept \x7b scoped_refptr<T>(std::move(r)).swap(*this); \x7d`.
The temporary move-constructs from `r`, swaps with `*this`, and is then
destroyed.  Returns `*this` afterwards, `r` afterwards, and the trace. -/
def moveAssign (a r : scoped_refptr) : scoped_refptr × scoped_refptr × List Event :=
  let m := moveCtor r
  let sw := swapWrap m.1 a
  (sw.2.1, m.2.1, m.2.2 ++ sw.2.2 ++ dtor sw.1)

/-- Move assignment when `r` aliases `*this` (`a = std::move(a)`), tracing the
same source steps with the aliasing made explicit: `release()` on `a` feeds
the temporary's constructor and nulls `a`, the temporary then swaps with the
(now null) `a`, and the temporary is destroyed. -/
def selfMoveAssign (a : scoped_refptr) : scoped_refptr × List Event :=
  let rel := a.release
  let temp : scoped_refptr := ⟨rel.1⟩
  let a1 := rel.2.1
  let sw := swapWrap temp a1
  (sw.2.1, rel.2.2 ++ sw.2.2 ++ dtor sw.1)

/-- Effect of one capability call on the count of object `o`. -/
def applyEvent (o : Nat) (c : Nat) : Event → Nat
  | Event.AddRef o2 => if o2 = o then c + 1 else c
  | Event.Release o2 => if o2 = o then c - 1 else c

/-- The count of object `o` after a trace of capability calls, starting
from count `c`. -/
def countAfter (es : List Event) (o : Nat) (c : Nat) : Nat :=
  es.foldl (applyEvent o) c

end rtc

namespace rtc

/-- Claim C1: raw-pointer assignment issues AddRef on `p` first (only when
non-null), then Release on the old target (only when non-null), then stores
`p`; when `p` aliases the current target and the count is at least one, the
count stays at least one at every point of the trace and is unchanged at the
end (self-assignment is safe). -/
theorem assignRaw_order_self_safe (s : scoped_refptr) (p : Ptr) :
    (assignRaw s p).2 = incrTrace p ++ decrTrace s.ptr_
    ∧ (assignRaw s p).1.ptr_ = p
    ∧ ∀ o c, p = some o → s.ptr_ = some o → 1 ≤ c →
        (∀ t ∈ (assignRaw s p).2.inits, 1 ≤ countAfter t o c)
        ∧ countAfter (assignRaw s p).2 o c = c := by
  refine ⟨rfl, rfl, ?_⟩
  intro o c hp hs hc
  subst hp
  constructor
  · intro t ht
    simp [assignRaw, incrTrace, decrTrace, hs, List.inits] at ht
    rcases ht with h | h | h <;> subst h <;>
      simp [countAfter, applyEvent] <;> omega
  · simp [assignRaw, incrTrace, decrTrace, hs, countAfter, applyEvent]

/-- Witness for C1 at `s = ⟨some 0⟩`, `p = some 0`, `c = 1`. -/
theorem assignRaw_order_self_safe_witness :
    (∀ t ∈ (assignRaw ⟨some 0⟩ (some 0)).2.inits, 1 ≤ countAfter t 0 1)
    ∧ countAfter (assignRaw ⟨some 0⟩ (some 0)).2 0 1 = 1 :=
  (assignRaw_order_self_safe ⟨some 0⟩ (some 0)).2.2 0 1 rfl rfl (by decide)

/-- Claim C2: constructing a wrapper from a raw pointer stores that pointer;
it issues no capability call when the pointer is null, and exactly one
AddRef call when non-null, raising the object's count by exactly one. -/
theorem fromRaw_spec (p : Ptr) (o c : Nat) :
    (fromRaw p).1.ptr_ = p
    ∧ (fromRaw none).2 = []
    ∧ (fromRaw (some o)).2 = [Event.AddRef o]
    ∧ countAfter (fromRaw (some o)).2 o c = c + 1 := by
  refine ⟨rfl, rfl, rfl, ?_⟩
  simp [fromRaw, incrTrace, countAfter, applyEvent]

/-- Claim C3: `release()` on a wrapper holding a non-null target returns the
stored raw pointer, leaves the wrapper null, and issues zero capability
calls. -/
theorem release_nonnull (s : scoped_refptr) (o : Nat) (h : s.ptr_ = some o) :
    s.release.1 = some o
    ∧ s.release.2.1.ptr_ = none
    ∧ s.release.2.2 = [] :=
  ⟨by simp [scoped_refptr.release, h], rfl, rfl⟩

/-- Witness for C3 at the wrapper holding object 0. -/
theorem release_nonnull_witness :
    (scoped_refptr.release ⟨some 0⟩).1 = some 0
    ∧ (scoped_refptr.release ⟨some 0⟩).2.1.ptr_ = none
    ∧ (scoped_refptr.release ⟨some 0⟩).2.2 = [] :=
  release_nonnull ⟨some 0⟩ 0 rfl

/-- Claim C4: move construction transfers the stored pointer, leaves the
source null, and issues zero capability calls, so every object's count is
unchanged. -/
theorem moveCtor_spec (a : scoped_refptr) (o c : Nat) :
    (moveCtor a).1.get = a.get
    ∧ (moveCtor a).2.1.ptr_ = none
    ∧ (moveCtor a).2.2 = []
    ∧ countAfter (moveCtor a).2.2 o c = c :=
  ⟨rfl, rfl, rfl, rfl⟩

/-- Claim C5: copying a wrapper with a non-null target issues exactly one
AddRef (the new wrapper holds the same pointer, the count goes up by one),
and destroying the copy issues exactly one Release, restoring the count. -/
theorem copy_destroy_roundtrip (a : scoped_refptr) (o : Nat)
    (h : a.ptr_ = some o) (c : Nat) :
    (copyCtor a).1.get = a.get
    ∧ (copyCtor a).2 = [Event.AddRef o]
    ∧ countAfter (copyCtor a).2 o c = c + 1
    ∧ dtor (copyCtor a).1 = [Event.Release o]
    ∧ countAfter ((copyCtor a).2 ++ dtor (copyCtor a).1) o c = c := by
  refine ⟨rfl, ?_, ?_, ?_, ?_⟩ <;>
    simp [copyCtor, incrTrace, dtor, decrTrace, h, countAfter, applyEvent,
      scoped_refptr.get]

/-- Witness for C5 at the wrapper holding object 0, starting count 1. -/
theorem copy_destroy_roundtrip_witness :
    countAfter (copyCtor ⟨some 0⟩).2 0 1 = 2
    ∧ countAfter ((copyCtor ⟨some 0⟩).2 ++ dtor (copyCtor ⟨some 0⟩).1) 0 1 = 1 :=
  ⟨(copy_destroy_roundtrip ⟨some 0⟩ 0 rfl 1).2.2.1,
   (copy_destroy_roundtrip ⟨some 0⟩ 0 rfl 1).2.2.2.2⟩

/-- Claim C6: move-assigning a distinct wrapper `r` into `a` whose old target
is non-null issues exactly one Release on that old target and no AddRef on
any object, leaves `r` null, and leaves `a` holding the pointer `r` held. -/
theorem moveAssign_spec (a r : scoped_refptr) (o : Nat) (h : a.ptr_ = some o) :
    (moveAssign a r).1.ptr_ = r.ptr_
    ∧ (moveAssign a r).2.1.ptr_ = none
    ∧ (moveAssign a r).2.2 = [Event.Release o]
    ∧ (moveAssign a r).2.2.count (Event.Release o) = 1
    ∧ ∀ o2, (moveAssign a r).2.2.count (Event.AddRef o2) = 0 := by
  refine ⟨rfl, rfl, ?_, ?_, ?_⟩ <;>
    simp [moveAssign, moveCtor, scoped_refptr.release, swapWrap, swapSlot,
      dtor, decrTrace, h, List.count]

/-- Witness for C6 at `a = ⟨some 0⟩`, `r = ⟨some 1⟩`. -/
theorem moveAssign_spec_witness :
    (moveAssign ⟨some 0⟩ ⟨some 1⟩).1.ptr_ = some 1
    ∧ (moveAssign ⟨some 0⟩ ⟨some 1⟩).2.2 = [Event.Release 0] :=
  ⟨(moveAssign_spec ⟨some 0⟩ ⟨some 1⟩ 0 rfl).1,
   (moveAssign_spec ⟨some 0⟩ ⟨some 1⟩ 0 rfl).2.2.1⟩

/-- Claim C7: swapping two wrappers exchanges their stored pointers with zero
capability calls, and swapping twice restores both wrappers exactly. -/
theorem swap_exchanges_involutive (a b : scoped_refptr) :
    (swapWrap a b).1.ptr_ = b.ptr_
    ∧ (swapWrap a b).2.1.ptr_ = a.ptr_
    ∧ (swapWrap a b).2.2 = []
    ∧ (swapWrap (swapWrap a b).1 (swapWrap a b).2.1).1 = a
    ∧ (swapWrap (swapWrap a b).1 (swapWrap a b).2.1).2.1 = b := by
  cases a
  cases b
  exact ⟨rfl, rfl, rfl, rfl, rfl⟩

/-- Claim C8: copy-assigning a wrapper `r` into `s` is exactly the raw-pointer
assignment at `r.get()`: it produces the same resulting wrapper and the same
capability calls in the same order, and `r` is not modified by either. -/
theorem assignCopy_refines_assignRaw (s r : scoped_refptr) :
    assignCopy s r = assignRaw s r.get
    ∧ (assignCopy s r).1.ptr_ = r.get
    ∧ (assignCopy s r).2 = incrTrace r.get ++ decrTrace s.ptr_ :=
  ⟨rfl, rfl, rfl⟩

/-- Claim C9: self-move-assignment `a = std::move(a)` leaves the wrapper
holding exactly the pointer it held before and issues zero capability
calls. -/
theorem selfMoveAssign_identity (a : scoped_refptr) :
    (selfMoveAssign a).1 = a ∧ (selfMoveAssign a).2 = [] := by
  cases a
  exact ⟨rfl, rfl⟩

/-- Claim C10: `release()` on a null wrapper returns null, leaves the wrapper
null, and issues zero capability calls. -/
theorem release_null (s : scoped_refptr) (h : s.ptr_ = none) :
    s.release.1 = none
    ∧ s.release.2.1.ptr_ = none
    ∧ s.release.2.2 = [] :=
  ⟨by simp [scoped_refptr.release, h], rfl, rfl⟩

/-- Witness for C10 at the null wrapper. -/
theorem release_null_witness :
    (scoped_refptr.release ⟨none⟩).1 = none
    ∧ (scoped_refptr.release ⟨none⟩).2.1.ptr_ = none
    ∧ (scoped_refptr.release ⟨none⟩).2.2 = [] :=
  release_null ⟨none⟩ rfl

end rtc
